import Mathlib

/-!
A shallow embedding of the publish pipeline of the osg-repo-scripts
repository (the `distrepos` package), with proofs about its three-tree
rotation, package-list classification, mirror probing, condor-repo pulls,
lock handling and driver aggregation.

Python functions are translated into executable Lean definitions; the
fallible filesystem and process operations are driven by explicit
failure-injection records so that partial-failure behaviour (rollback,
tolerated exit codes, lock release) can be stated and proved.
-/

set_option maxHeartbeats 1000000

namespace Distrepos

/-! ## Three-tree rotation: `distrepos/tag_run.py`, `update_release_repos` -/

/-- The slice of the filesystem that `update_release_repos` touches: the
content found at the release (published) path, the working path and the
previous path.  `none` means the path does not exist; `α` abstracts the tree
content (the set of relative paths and file identities).  A directory rename
moves content wholesale, so no finer structure is needed. -/
structure FS (α : Type) where
  release : Option α
  working : Option α
  previous : Option α
deriving Repr, DecidableEq

/-- Failure injection for `update_release_repos`: which of its fallible
filesystem calls raise `OSError` in a given run. -/
structure RotateFailures where
  rmtreeFails : Bool
  moveReleaseToPreviousFails : Bool
  moveWorkingToReleaseFails : Bool
  moveBackFails : Bool
deriving Repr, DecidableEq

/-- Result of `update_release_repos`: normal return, or a raised
`TagFailure`. -/
inductive RotateOutcome
  | ok
  | tagFailure
deriving Repr, DecidableEq

/-- Shallow embedding of `update_release_repos(release_path, working_path,
previous_path)` from `distrepos/tag_run.py` (lines 307-378).  Each branch is
annotated with the source statement it translates.  A failed `shutil.move`
is modelled as leaving both paths unchanged (a directory rename either
happens or does not), and a failed `shutil.rmtree` as leaving the tree in
place; `mkdir(parents=True, exist_ok=True)` calls touch none of the three
tracked paths and are omitted. -/
def update_release_repos (f : RotateFailures) (s : FS α) : RotateOutcome × FS α :=
  -- "if not working_path.exists(): ... raise TagFailure(failmsg)"
  if s.working.isNone then (.tagFailure, s)
  else
    -- "if previous_path.exists(): shutil.rmtree(previous_path)" (may raise)
    if s.previous.isSome && f.rmtreeFails then (.tagFailure, s)
    else
      let s1 : FS α := { s with previous := none }
      -- "if release_path.exists(): shutil.move(release_path, previous_path)"
      if s1.release.isSome && f.moveReleaseToPreviousFails then (.tagFailure, s1)
      else
        let s2 : FS α :=
          if s1.release.isSome then
            { s1 with previous := s1.release, release := none }
          else s1
        -- "shutil.move(working_path, release_path)"
        if f.moveWorkingToReleaseFails then
          -- "Undo, undo!  if previous_path.exists():
          --    shutil.move(previous_path, release_path)" (may itself raise,
          -- in which case it is only logged)
          if s2.previous.isSome && !f.moveBackFails then
            (.tagFailure, { s2 with release := s2.previous, previous := none })
          else (.tagFailure, s2)
        else (.ok, { s2 with release := s2.working, working := none })

/-- C1: if the published path exists and the rotation returns normally, then
afterward the previous path holds exactly the content that was at the
published path before the call, and the published path holds exactly the
content that was at the working path before the call. -/
theorem update_release_repos_rotates {α : Type} (f : RotateFailures) (s : FS α)
    (p : α) (hpub : s.release = some p)
    (hok : (update_release_repos f s).1 = RotateOutcome.ok) :
    (update_release_repos f s).2.previous = some p ∧
      (update_release_repos f s).2.release = s.working := by
  rcases s with ⟨rel, w, prev⟩
  rcases f with ⟨a, b, c, d⟩
  simp only at hpub
  subst hpub
  cases w <;> cases prev <;> cases a <;> cases b <;> cases c <;> cases d <;>
    simp_all [update_release_repos]

/-- Concrete instance of `update_release_repos_rotates`. -/
theorem update_release_repos_rotates_witness :
    (update_release_repos ⟨false, false, false, false⟩
        (⟨some 1, some 2, some 3⟩ : FS Nat)).2.previous = some 1 ∧
      (update_release_repos ⟨false, false, false, false⟩
        (⟨some 1, some 2, some 3⟩ : FS Nat)).2.release = some 2 :=
  update_release_repos_rotates ⟨false, false, false, false⟩
    (⟨some 1, some 2, some 3⟩ : FS Nat) 1 rfl (by decide)

/-- C2: if the working path does not exist, the rotation raises a
`TagFailure` and the filesystem state (release, working and previous paths,
including their presence or absence) is left untouched. -/
theorem update_release_repos_missing_working {α : Type} (f : RotateFailures)
    (s : FS α) (hw : s.working = none) :
    (update_release_repos f s).1 = RotateOutcome.tagFailure ∧
      (update_release_repos f s).2 = s := by
  simp [update_release_repos, hw]

/-- Concrete instance of `update_release_repos_missing_working`. -/
theorem update_release_repos_missing_working_witness :
    (update_release_repos ⟨false, false, false, false⟩
        (⟨some 1, none, some 3⟩ : FS Nat)).1 = RotateOutcome.tagFailure ∧
      (update_release_repos ⟨false, false, false, false⟩
        (⟨some 1, none, some 3⟩ : FS Nat)).2 = ⟨some 1, none, some 3⟩ :=
  update_release_repos_missing_working ⟨false, false, false, false⟩
    (⟨some 1, none, some 3⟩ : FS Nat) rfl

/-- C3: if the final move (working to published) fails after the
published-to-previous move already succeeded, the function still raises a
`TagFailure`, and when the rollback move does not itself fail the published
path is restored to its pre-rotation content. -/
theorem update_release_repos_rollback {α : Type} (f : RotateFailures) (s : FS α)
    (p : α) (hpub : s.release = some p)
    (hw : s.working.isSome = true)
    (hrm : s.previous.isSome = true → f.rmtreeFails = false)
    (hm1 : f.moveReleaseToPreviousFails = false)
    (hm2 : f.moveWorkingToReleaseFails = true) :
    (update_release_repos f s).1 = RotateOutcome.tagFailure ∧
      (f.moveBackFails = false →
        (update_release_repos f s).2.release = some p) := by
  rcases s with ⟨rel, w, prev⟩
  rcases f with ⟨a, b, c, d⟩
  simp only at hpub hw hrm hm1 hm2
  subst hpub
  subst hm1
  subst hm2
  cases w <;> cases prev <;> cases a <;> cases d <;>
    simp_all [update_release_repos]

/-- Concrete instance of `update_release_repos_rollback`. -/
theorem update_release_repos_rollback_witness :
    (update_release_repos ⟨false, false, true, false⟩
        (⟨some 1, some 2, some 3⟩ : FS Nat)).1 = RotateOutcome.tagFailure ∧
      (false = false →
        (update_release_repos ⟨false, false, true, false⟩
          (⟨some 1, some 2, some 3⟩ : FS Nat)).2.release = some 1) :=
  update_release_repos_rollback ⟨false, false, true, false⟩
    (⟨some 1, some 2, some 3⟩ : FS Nat) 1 rfl (by decide) (fun _ => rfl)
    rfl rfl

/-! ## Package-list classification: `distrepos/tag_run.py`, `update_pkglist_files` -/

/-- Python `str.endswith`, on the characters of the strings. -/
def pyEndsWith (s suffix : String) : Bool :=
  suffix.data.isSuffixOf s.data

/-- Python substring membership (the `in` operator on `str`). -/
def pyContains (s needle : String) : Bool :=
  decide (needle.data <:+: s.data)

/-- One file yielded by `os.walk` over a `Packages` directory tree: the
subdirectory components of `dirpath` below the `Packages` directory, and one
filename from that directory. -/
structure WalkEntry where
  subdir : List String
  fname : String
deriving Repr, DecidableEq

/-- Path components of `os.path.join(os.path.relpath(dirpath, tree_dir), fn)`
where `dirpath = tree_dir/Packages/<subdir>`: the path of the file relative
to the tree root (`src_dir` for the source walk, `arch_dir` for the
architecture walk). -/
def relFromTreeRoot (e : WalkEntry) : List String :=
  "Packages" :: (e.subdir ++ [e.fname])

/-- Path components of `os.path.join(os.path.relpath(dirpath,
arch_debug_dir), fn)` where `dirpath = arch_dir/Packages/<subdir>` and
`arch_debug_dir = arch_dir/debug`: relative to the debug subdirectory the
path climbs out with a `..` component first. -/
def relFromDebugDir (e : WalkEntry) : List String :=
  ".." :: "Packages" :: (e.subdir ++ [e.fname])

/-- The debuginfo/debugsource naming convention tested by
`"-debuginfo" in fn or "-debugsource" in fn`. -/
def isDebugName (fn : String) : Bool :=
  pyContains fn "-debuginfo" || pyContains fn "-debugsource"

/-- The source-RPM walk loop of `update_pkglist_files` (lines 184-189):
every file ending in `.src.rpm` contributes its path relative to `src_dir`
to the source pkglist, every other file is skipped. -/
def srcWalkLoop : List WalkEntry → List (List String)
  | [] => []
  | e :: rest =>
    if pyEndsWith e.fname ".src.rpm" then relFromTreeRoot e :: srcWalkLoop rest
    else srcWalkLoop rest

/-- The per-architecture walk loop of `update_pkglist_files` (lines
216-231): files not ending in `.rpm` are skipped; files matching the
debuginfo/debugsource convention go into the debug pkglist with a path
relative to the debug directory; all other `.rpm` files go into the
architecture pkglist with a path relative to the architecture directory.
Returns (architecture pkglist lines, debug pkglist lines). -/
def archWalkLoop : List WalkEntry → List (List String) × List (List String)
  | [] => ([], [])
  | e :: rest =>
    let r := archWalkLoop rest
    if !pyEndsWith e.fname ".rpm" then r
    else if isDebugName e.fname then (r.1, relFromDebugDir e :: r.2)
    else (relFromTreeRoot e :: r.1, r.2)

/-- The three package lists written by `update_pkglist_files` for the source
tree and for one architecture tree. -/
structure PkgLists where
  srcList : List (List String)
  archList : List (List String)
  debugList : List (List String)
deriving Repr, DecidableEq

/-- Shallow embedding of `update_pkglist_files(working_path, arches)` from
`distrepos/tag_run.py` (lines 161-241), for the source walk and the walk of
one architecture directory (the source function repeats the architecture
part for each configured architecture with its own pair of files). -/
def update_pkglist_files (srcWalk archWalk : List WalkEntry) : PkgLists :=
  { srcList := srcWalkLoop srcWalk
    archList := (archWalkLoop archWalk).1
    debugList := (archWalkLoop archWalk).2 }

theorem srcWalkLoop_eq (S : List WalkEntry) :
    srcWalkLoop S
      = (S.filter fun e => pyEndsWith e.fname ".src.rpm").map relFromTreeRoot := by
  induction S with
  | nil => rfl
  | cons e rest ih =>
    by_cases h : pyEndsWith e.fname ".src.rpm" <;> simp [srcWalkLoop, h, ih]

theorem archWalkLoop_eq (A : List WalkEntry) :
    archWalkLoop A
      = ((A.filter fun e =>
            pyEndsWith e.fname ".rpm" && !isDebugName e.fname).map relFromTreeRoot,
         (A.filter fun e =>
            pyEndsWith e.fname ".rpm" && isDebugName e.fname).map relFromDebugDir) := by
  induction A with
  | nil => rfl
  | cons e rest ih =>
    by_cases h1 : pyEndsWith e.fname ".rpm" <;>
      by_cases h2 : isDebugName e.fname <;>
        simp [archWalkLoop, h1, h2, ih]

/-- C4: `update_pkglist_files` classifies each walked file into exactly one
list: files ending in `.src.rpm` under the source tree make up exactly the
source pkglist (paths relative to the source tree root); `.rpm` files of the
architecture tree matching the debuginfo/debugsource convention make up
exactly the architecture debug pkglist, each with a recorded path whose
first component is the parent-directory `..` segment (relative to the debug
subdirectory); all other `.rpm` files of the architecture tree make up
exactly the architecture pkglist with paths relative to the architecture
directory. -/
theorem update_pkglist_files_classification (S A : List WalkEntry) :
    (update_pkglist_files S A).srcList
        = (S.filter fun e => pyEndsWith e.fname ".src.rpm").map relFromTreeRoot
      ∧ (update_pkglist_files S A).archList
        = (A.filter fun e =>
            pyEndsWith e.fname ".rpm" && !isDebugName e.fname).map relFromTreeRoot
      ∧ (update_pkglist_files S A).debugList
        = (A.filter fun e =>
            pyEndsWith e.fname ".rpm" && isDebugName e.fname).map relFromDebugDir
      ∧ ∀ p ∈ (update_pkglist_files S A).debugList, p.head? = some ".." := by
  refine ⟨srcWalkLoop_eq S, ?_, ?_, ?_⟩
  · exact congrArg Prod.fst (archWalkLoop_eq A)
  · exact congrArg Prod.snd (archWalkLoop_eq A)
  · intro p hp
    simp only [update_pkglist_files] at hp
    rw [show (archWalkLoop A).2
          = (A.filter fun e =>
              pyEndsWith e.fname ".rpm" && isDebugName e.fname).map relFromDebugDir
        from congrArg Prod.snd (archWalkLoop_eq A)] at hp
    rcases List.mem_map.mp hp with ⟨e, _, rfl⟩
    rfl

/-! ## Mirror freshness probe: `distrepos/mirror_run.py`, `test_single_mirror` -/

/-- The part of the HTTP response that `test_single_mirror` inspects: the
status code, and the parsed `Last-Modified` time as a timestamp in seconds
(`none` when the header is absent). -/
structure ProbeResponse where
  status_code : Nat
  lastModified : Option Int
deriving Repr, DecidableEq

/-- Shallow embedding of `test_single_mirror(repodata_url)` from
`distrepos/mirror_run.py` (lines 47-70).  `now` stands for
`datetime.now()`; times are in seconds, and `timedelta(hours=24)` is 86400
seconds.  The source compares `datetime.now() - lastmodtime >
timedelta(hours=24)` and returns `False` on a non-200 status or a missing
header. -/
def test_single_mirror (now : Int) (r : ProbeResponse) : Bool :=
  if r.status_code ≠ 200 then false
  else
    match r.lastModified with
    | none => false
    | some lastmodtime =>
      if now - lastmodtime > 86400 then false
      else true

/-- The literal reading of claim C5: a candidate is good if and only if the
probe returns status 200 and carries a `Last-Modified` timestamp whose age
is strictly less than 24 hours. -/
def mirrorProbeStrictClaim : Prop :=
  ∀ (now : Int) (r : ProbeResponse),
    test_single_mirror now r = true ↔
      (r.status_code = 200 ∧ ∃ t, r.lastModified = some t ∧ now - t < 86400)

/-- C5 counterexample: at an age of exactly 24 hours (status 200,
`Last-Modified` present, `now - t = 86400`) the source judges the mirror
good, so goodness is not equivalent to an age strictly below 24 hours. -/
theorem test_single_mirror_strict_bound_fails : ¬ mirrorProbeStrictClaim := by
  intro h
  have h2 := (h 86400 ⟨200, some 0⟩).mp (by decide)
  rcases h2 with ⟨-, t, ht, hlt⟩
  have ht0 : (0 : Int) = t := by
    simpa using ht
  subst ht0
  omega

/-- C5 amended: a candidate is good if and only if the probe returns status
200 and carries a `Last-Modified` timestamp whose age is at most 24 hours;
a non-200 status, a missing header, or an age exceeding 24 hours each make
it not good.  In particular a 23-hour-old response is good and a
25-hour-old one is not. -/
theorem test_single_mirror_iff (now : Int) (r : ProbeResponse) :
    test_single_mirror now r = true ↔
      (r.status_code = 200 ∧ ∃ t, r.lastModified = some t ∧ now - t ≤ 86400) := by
  rcases r with ⟨sc, lm⟩
  cases lm with
  | none => simp [test_single_mirror]
  | some t =>
    simp only [test_single_mirror]
    by_cases hsc : sc = 200
    · subst hsc
      by_cases hage : now - t > 86400
      · constructor
        · intro hgood
          exfalso
          have h2 : (if now - t > 86400 then false else true) = true := by
            simpa using hgood
          rw [if_pos hage] at h2
          exact Bool.false_ne_true h2
        · rintro ⟨-, t2, ht2, hle⟩
          have h3 : t = t2 := by simpa using ht2
          omega
      · constructor
        · intro _
          exact ⟨rfl, t, rfl, by omega⟩
        · intro _
          simp [hage]
    · simp [hsc]

/-! ## Mirror list update: `distrepos/mirror_run.py`, `update_mirrors_for_tag` -/

/-- Python `str.startswith`, on the characters of the strings. -/
def pyStartsWith (s pre : String) : Bool :=
  pre.data.isPrefixOf s.data

/-- Characters that may continue a placeholder identifier of
`string.Template`. -/
def isIdentChar (c : Char) : Bool :=
  c.isAlphanum || c = '_'

/-- Modelled after the stdlib call `string.Template(s).safe_substitute(
\x7b"ARCH": arch\x7d)` used by `get_mirror_info_for_arch` and
`pull_condor_repos`: `$$` is the escape for a dollar sign; the placeholder
`$ARCH` (longest identifier match, so e.g. `$ARCHIVE` is a different
placeholder) is replaced by `arch`; any other placeholder is left in place.
The braced placeholder form does not occur in this repository's templates
and is not modelled. -/
def substARCH (arch : List Char) : List Char → List Char
  | [] => []
  | '$' :: '$' :: rest => '$' :: substARCH arch rest
  | '$' :: 'A' :: 'R' :: 'C' :: 'H' :: rest =>
    if isIdentChar (rest.headD ' ') then
      -- a longer placeholder such as $ARCHIVE: left alone by safe_substitute
      '$' :: substARCH arch ('A' :: 'R' :: 'C' :: 'H' :: rest)
    else
      arch ++ substARCH arch rest
  | c :: rest => c :: substARCH arch rest

/-- The helper `sub_arch`: substitute `arch` for `$ARCH` in a string. -/
def sub_arch (template arch : String) : String :=
  ⟨substARCH arch.data template.data⟩

/-- Python `os.path.join(a, b)` for two components: an absolute second
component discards the first; otherwise the parts are joined with a single
slash. -/
def pathJoin (a b : String) : String :=
  if pyStartsWith b "/" then b
  else if a = "" || pyEndsWith a "/" then a ++ b
  else a ++ "/" ++ b

/-- Shallow embedding of `get_baseline_urls()` from
`distrepos/mirror_run.py` (lines 19-33), as a function of the local fully
qualified domain name. -/
def get_baseline_urls (fqdn : String) : List String :=
  if pyContains fqdn "osgdev" || pyContains fqdn "osg-dev" then
    ["https://repo-itb.osg-htc.org"]
  else
    ["https://repo.osg-htc.org"]

/-- The fields of a `Tag` that the mirror pipeline reads. -/
structure MirrorTag where
  name : String
  dest : String
  arches : List String
  arch_rpms_mirror_base : String
deriving Repr, DecidableEq

/-- Shallow embedding of `get_mirror_info_for_arch(hostname, tag, arch)`
from `distrepos/mirror_run.py` (lines 35-45): returns the mirror base URL
and the URL of its `repodata/repomd.xml`. -/
def get_mirror_info_for_arch (hostname : String) (tag : MirrorTag)
    (arch : String) : String × String :=
  let path_arch := sub_arch tag.arch_rpms_mirror_base arch
  let mirror_base := pathJoin hostname path_arch
  (mirror_base, pathJoin mirror_base "repodata/repomd.xml")

/-- The inner hostname loop of `update_mirrors_for_tag` for one
architecture: every hostname whose `repodata/repomd.xml` URL passes the
probe contributes its mirror base URL, in hostname order.  `probe url`
stands for `test_single_mirror` applied to the live HTTP response for
`url`. -/
def goodMirrorsForArch (hostnames : List String) (tag : MirrorTag)
    (arch : String) (probe : String → Bool) : List String :=
  (hostnames.filter fun h => probe (get_mirror_info_for_arch h tag arch).2).map
    (fun h => (get_mirror_info_for_arch h tag arch).1)

/-- The architecture loop of `update_mirrors_for_tag` (lines 87-97).  The
accumulator is the Python variable `good_mirrors`, which leaks out of the
`for` loop: after the loop it holds the value from the final iteration.  An
architecture with no good mirrors causes an early error return. -/
def archesLoop (hostnames : List String) (tag : MirrorTag)
    (probe : String → Bool) : List String → List String → Except String (List String)
  | acc, [] => Except.ok acc
  | _, arch :: rest =>
    let good := goodMirrorsForArch hostnames tag arch probe
    if good.isEmpty then
      Except.error ("No good mirrors found for tag " ++ tag.name)
    else
      archesLoop hostnames tag probe good rest

/-- Observable outcome of `update_mirrors_for_tag`: the `(ok, error)`
return value, the lines written to the working mirror file (`none` when the
file is not written), and whether the three-tree rotation primitive
`update_release_repos` was invoked on the mirror trees. -/
structure MirrorUpdateResult where
  ok : Bool
  error : String
  written : Option (List String)
  rotated : Bool
deriving Repr, DecidableEq

/-- Shallow embedding of `update_mirrors_for_tag(options, tag)` from
`distrepos/mirror_run.py` (lines 72-113).  The candidate hostnames are the
baseline URLs for the local FQDN followed by `options.mirror_hosts`.  On
success the file content is `(chr 10).join(good_mirrors)`, i.e. one mirror
base URL per line, and the file is published with `update_release_repos`.
The initial accumulator `[]` stands for the unbound Python variable
`good_mirrors` before the loop; it is never returned when `tag.arches` is
nonempty (with an empty architecture list the source would raise
`NameError` instead). -/
def update_mirrors_for_tag (fqdn : String) (mirror_hosts : List String)
    (tag : MirrorTag) (probe : String → Bool) : MirrorUpdateResult :=
  let mirror_hostnames := get_baseline_urls fqdn ++ mirror_hosts
  match archesLoop mirror_hostnames tag probe [] tag.arches with
  | Except.error msg => { ok := false, error := msg, written := none, rotated := false }
  | Except.ok good => { ok := true, error := "", written := some good, rotated := true }

/-- The literal reading of claim C6: the update fails when some
architecture has zero good candidates, and otherwise the working file
receives the good mirror base URLs of every architecture of the tag and is
published through the rotation primitive. -/
def mirrorUpdateAllArchesClaim : Prop :=
  ∀ (fqdn : String) (mirror_hosts : List String) (tag : MirrorTag)
    (probe : String → Bool), tag.arches ≠ [] →
    ((∃ arch ∈ tag.arches,
        goodMirrorsForArch (get_baseline_urls fqdn ++ mirror_hosts) tag arch probe = []) →
      (update_mirrors_for_tag fqdn mirror_hosts tag probe).ok = false)
    ∧ ((∀ arch ∈ tag.arches,
        goodMirrorsForArch (get_baseline_urls fqdn ++ mirror_hosts) tag arch probe ≠ []) →
      (update_mirrors_for_tag fqdn mirror_hosts tag probe).ok = true
      ∧ (update_mirrors_for_tag fqdn mirror_hosts tag probe).rotated = true
      ∧ ∃ L, (update_mirrors_for_tag fqdn mirror_hosts tag probe).written = some L
          ∧ ∀ url, url ∈ L ↔ ∃ arch ∈ tag.arches,
              url ∈ goodMirrorsForArch (get_baseline_urls fqdn ++ mirror_hosts) tag arch probe)

/-- C6 counterexample: with two architectures `a` and `b`, one candidate
host and a probe that accepts everything, the written file holds only
architecture `b`'s mirror URL; the URL for architecture `a` is missing, so
the file does not cover each of the tag's architectures. -/
theorem update_mirrors_last_arch_only : ¬ mirrorUpdateAllArchesClaim := by
  intro h
  have h2 := h "x" [] ⟨"t", "d", ["a", "b"], "$ARCH"⟩ (fun _ => true) (by simp)
  obtain ⟨-, hgood⟩ := h2
  have h3 := hgood (by decide)
  obtain ⟨-, -, L, hL, hiff⟩ := h3
  have hw : (update_mirrors_for_tag "x" [] ⟨"t", "d", ["a", "b"], "$ARCH"⟩
      (fun _ => true)).written = some ["https://repo.osg-htc.org/b"] := by decide
  rw [hw] at hL
  obtain rfl : L = ["https://repo.osg-htc.org/b"] := (Option.some_inj.mp hL).symm
  have hmem := (hiff "https://repo.osg-htc.org/a").mpr
    ⟨"a", by decide, by decide⟩
  exact absurd hmem (by decide)

theorem archesLoop_all_good (hostnames : List String) (tag : MirrorTag)
    (probe : String → Bool) :
    ∀ (arches : List String) (acc : List String) (hne : arches ≠ []),
      (∀ arch ∈ arches, goodMirrorsForArch hostnames tag arch probe ≠ []) →
      archesLoop hostnames tag probe acc arches
        = Except.ok (goodMirrorsForArch hostnames tag (arches.getLast hne) probe) := by
  intro arches
  induction arches with
  | nil => intro _ hne _; exact absurd rfl hne
  | cons a rest ih =>
    intro acc _ hall
    have ha : goodMirrorsForArch hostnames tag a probe ≠ [] :=
      hall a (List.mem_cons_self a rest)
    have hae : (goodMirrorsForArch hostnames tag a probe).isEmpty = false := by
      simpa [List.isEmpty_iff] using ha
    cases rest with
    | nil => simp [archesLoop, hae]
    | cons b rest2 =>
      rw [show archesLoop hostnames tag probe acc (a :: b :: rest2)
            = archesLoop hostnames tag probe
                (goodMirrorsForArch hostnames tag a probe) (b :: rest2) by
          simp [archesLoop, hae]]
      rw [ih (goodMirrorsForArch hostnames tag a probe) (by simp)
          (fun arch harch => hall arch (List.mem_cons_of_mem a harch))]
      rw [List.getLast_cons (by simp : b :: rest2 ≠ [])]

theorem archesLoop_some_empty (hostnames : List String) (tag : MirrorTag)
    (probe : String → Bool) :
    ∀ (arches : List String) (acc : List String),
      (∃ arch ∈ arches, goodMirrorsForArch hostnames tag arch probe = []) →
      archesLoop hostnames tag probe acc arches
        = Except.error ("No good mirrors found for tag " ++ tag.name) := by
  intro arches
  induction arches with
  | nil => intro _ h; simp at h
  | cons a rest ih =>
    intro acc h
    by_cases ha : goodMirrorsForArch hostnames tag a probe = []
    · simp [archesLoop, ha]
    · have hae : (goodMirrorsForArch hostnames tag a probe).isEmpty = false := by
        simpa [List.isEmpty_iff] using ha
      have hrest : ∃ arch ∈ rest, goodMirrorsForArch hostnames tag arch probe = [] := by
        rcases h with ⟨arch, hmem, hempty⟩
        rcases List.mem_cons.mp hmem with rfl | hmem2
        · exact absurd hempty ha
        · exact ⟨arch, hmem2, hempty⟩
      simp [archesLoop, hae, ih _ hrest]

/-- C6 amended: `update_mirrors_for_tag` fails exactly when some
architecture has zero good candidate mirrors (writing nothing and invoking
no rotation); otherwise it writes the good mirror base URLs of the LAST
architecture of the tag — one per line, architecture-qualified — to the
working file and publishes it through the same three-tree rotation
primitive. -/
theorem update_mirrors_for_tag_spec (fqdn : String) (mirror_hosts : List String)
    (tag : MirrorTag) (probe : String → Bool) (hne : tag.arches ≠ []) :
    ((update_mirrors_for_tag fqdn mirror_hosts tag probe).ok = false ↔
      ∃ arch ∈ tag.arches,
        goodMirrorsForArch (get_baseline_urls fqdn ++ mirror_hosts) tag arch probe = [])
    ∧ ((update_mirrors_for_tag fqdn mirror_hosts tag probe).ok = true →
        (update_mirrors_for_tag fqdn mirror_hosts tag probe).written
            = some (goodMirrorsForArch (get_baseline_urls fqdn ++ mirror_hosts) tag
                (tag.arches.getLast hne) probe)
          ∧ (update_mirrors_for_tag fqdn mirror_hosts tag probe).rotated = true)
    ∧ ((update_mirrors_for_tag fqdn mirror_hosts tag probe).ok = false →
        (update_mirrors_for_tag fqdn mirror_hosts tag probe).written = none
          ∧ (update_mirrors_for_tag fqdn mirror_hosts tag probe).rotated = false) := by
  by_cases hex : ∃ arch ∈ tag.arches,
      goodMirrorsForArch (get_baseline_urls fqdn ++ mirror_hosts) tag arch probe = []
  · have herr := archesLoop_some_empty (get_baseline_urls fqdn ++ mirror_hosts)
      tag probe tag.arches [] hex
    refine ⟨?_, ?_, ?_⟩ <;> simp [update_mirrors_for_tag, herr, hex]
  · have hall : ∀ arch ∈ tag.arches,
        goodMirrorsForArch (get_baseline_urls fqdn ++ mirror_hosts) tag arch probe ≠ [] := by
      intro arch harch
      exact fun hempty => hex ⟨arch, harch, hempty⟩
    have hok := archesLoop_all_good (get_baseline_urls fqdn ++ mirror_hosts)
      tag probe tag.arches [] hne hall
    refine ⟨?_, ?_, ?_⟩ <;> simp [update_mirrors_for_tag, hok, hex]

/-- Concrete instance of `update_mirrors_for_tag_spec`: one architecture,
one good candidate host. -/
theorem update_mirrors_for_tag_spec_witness :
    ((update_mirrors_for_tag "x" [] ⟨"t", "d", ["a"], "$ARCH"⟩ (fun _ => true)).ok = false ↔
      ∃ arch ∈ (["a"] : List String),
        goodMirrorsForArch (get_baseline_urls "x" ++ []) ⟨"t", "d", ["a"], "$ARCH"⟩
          arch (fun _ => true) = [])
    ∧ ((update_mirrors_for_tag "x" [] ⟨"t", "d", ["a"], "$ARCH"⟩ (fun _ => true)).ok = true →
        (update_mirrors_for_tag "x" [] ⟨"t", "d", ["a"], "$ARCH"⟩ (fun _ => true)).written
            = some (goodMirrorsForArch (get_baseline_urls "x" ++ [])
                ⟨"t", "d", ["a"], "$ARCH"⟩
                ((["a"] : List String).getLast (by decide)) (fun _ => true))
          ∧ (update_mirrors_for_tag "x" [] ⟨"t", "d", ["a"], "$ARCH"⟩ (fun _ => true)).rotated = true)
    ∧ ((update_mirrors_for_tag "x" [] ⟨"t", "d", ["a"], "$ARCH"⟩ (fun _ => true)).ok = false →
        (update_mirrors_for_tag "x" [] ⟨"t", "d", ["a"], "$ARCH"⟩ (fun _ => true)).written = none
          ∧ (update_mirrors_for_tag "x" [] ⟨"t", "d", ["a"], "$ARCH"⟩ (fun _ => true)).rotated = false) :=
  update_mirrors_for_tag_spec "x" [] ⟨"t", "d", ["a"], "$ARCH"⟩ (fun _ => true) (by decide)

/-! ## Tag pipeline driver: `distrepos/tag_run.py`, `run_one_tag` -/

/-- Environment and failure injection for one `run_one_tag` invocation:
which of its fallible operations raise, whether a lock directory is
configured, whether the lock is free, and whether the pipeline body raises
a `TagFailure`. -/
structure TagRunEnv where
  makedirsWorkingFails : Bool
  lockDirConfigured : Bool
  lockSetupFails : Bool
  lockAvailable : Bool
  pipelineFailure : Option String
  releaseLockRaises : Bool
deriving Repr, DecidableEq

/-- Observable outcome of `run_one_tag`: the `(ok, message)` return value
plus bookkeeping of the lock file and of whether the pipeline body was
entered. -/
structure TagRunResult where
  ok : Bool
  msg : String
  lockFileCreated : Bool
  lockAcquired : Bool
  lockReleased : Bool
  pipelineRan : Bool
  failedLockContention : Bool
deriving Repr, DecidableEq

/-- Shallow embedding of `run_one_tag(options, tag)` from
`distrepos/tag_run.py` (lines 381-445).  The pipeline steps
(`get_koji_latest_dir` through `update_release_repos`) are abstracted into
`env.pipelineFailure`: `some m` when one of them raises `TagFailure(m)`,
caught by the `except TagFailure` clause.  The `finally` block calls
`release_lock` when `lock_fh` is set; an `OSError` from it is caught and
only logged, which is why `env.releaseLockRaises` influences nothing below.
When `acquire_lock` finds the lock taken, the lock file was still created
by `open(lock_path, "w")` before `flock` refused. -/
def run_one_tag (env : TagRunEnv) : TagRunResult :=
  -- "os.makedirs(working_path, exist_ok=True)" (may raise OSError)
  if env.makedirsWorkingFails then
    { ok := false, msg := "OSError creating working dir",
      lockFileCreated := false, lockAcquired := false, lockReleased := false,
      pipelineRan := false, failedLockContention := false }
  else if env.lockDirConfigured then
    -- "os.makedirs(options.lock_dir, exist_ok=True); lock_fh = acquire_lock(lock_path)"
    if env.lockSetupFails then
      { ok := false, msg := "OSError creating lockfile",
        lockFileCreated := false, lockAcquired := false, lockReleased := false,
        pipelineRan := false, failedLockContention := false }
    else if !env.lockAvailable then
      -- "if not lock_fh: return False, Another run in progress"
      { ok := false, msg := "Another run in progress",
        lockFileCreated := true, lockAcquired := false, lockReleased := false,
        pipelineRan := false, failedLockContention := true }
    else
      -- try: pipeline / except TagFailure / finally: release_lock
      match env.pipelineFailure with
      | some m =>
        { ok := false, msg := m,
          lockFileCreated := true, lockAcquired := true, lockReleased := true,
          pipelineRan := true, failedLockContention := false }
      | none =>
        { ok := true, msg := "",
          lockFileCreated := true, lockAcquired := true, lockReleased := true,
          pipelineRan := true, failedLockContention := false }
  else
    -- lock_dir unset: lock_fh stays None, no lock file, the finally block
    -- releases nothing, and the pipeline runs unconditionally
    match env.pipelineFailure with
    | some m =>
      { ok := false, msg := m,
        lockFileCreated := false, lockAcquired := false, lockReleased := false,
        pipelineRan := true, failedLockContention := false }
    | none =>
      { ok := true, msg := "",
        lockFileCreated := false, lockAcquired := false, lockReleased := false,
        pipelineRan := true, failedLockContention := false }

/-- C7: whenever `run_one_tag` acquires the tag lock it also releases it
before returning, on both the success and the `TagFailure` exit path; and
an `OSError` raised while releasing (caught and logged by the `finally`
block) never changes the `(ok, message)` result. -/
theorem run_one_tag_releases_lock (env : TagRunEnv) (b : Bool)
    (hacq : (run_one_tag env).lockAcquired = true) :
    (run_one_tag env).lockReleased = true
    ∧ (run_one_tag { env with releaseLockRaises := b }).ok = (run_one_tag env).ok
    ∧ (run_one_tag { env with releaseLockRaises := b }).msg = (run_one_tag env).msg := by
  rcases env with ⟨mk, ld, ls, la, pf, rr⟩
  cases mk <;> cases ld <;> cases ls <;> cases la <;> cases pf <;>
    simp_all [run_one_tag]

/-- Concrete instance of `run_one_tag_releases_lock`: lock directory
configured, lock free, pipeline fails with a `TagFailure`, release raises. -/
theorem run_one_tag_releases_lock_witness :
    (run_one_tag ⟨false, true, false, true, some "boom", false⟩).lockReleased = true
    ∧ (run_one_tag { (⟨false, true, false, true, some "boom", false⟩ : TagRunEnv) with
          releaseLockRaises := true }).ok
        = (run_one_tag ⟨false, true, false, true, some "boom", false⟩).ok
    ∧ (run_one_tag { (⟨false, true, false, true, some "boom", false⟩ : TagRunEnv) with
          releaseLockRaises := true }).msg
        = (run_one_tag ⟨false, true, false, true, some "boom", false⟩).msg :=
  run_one_tag_releases_lock ⟨false, true, false, true, some "boom", false⟩ true
    (by decide)

/-- C10: when no lock directory is configured (and the working-directory
creation succeeds), `run_one_tag` creates no lock file and acquires no
lock, the pipeline body runs unconditionally and alone determines the
result; and the lock-contention failure can only ever occur when a lock
directory is configured. -/
theorem run_one_tag_no_lock_dir (env env2 : TagRunEnv)
    (hdir : env.lockDirConfigured = false)
    (hmk : env.makedirsWorkingFails = false) :
    (run_one_tag env).lockFileCreated = false
    ∧ (run_one_tag env).lockAcquired = false
    ∧ (run_one_tag env).pipelineRan = true
    ∧ (run_one_tag env).ok = env.pipelineFailure.isNone
    ∧ ((run_one_tag env2).failedLockContention = true →
        env2.lockDirConfigured = true) := by
  rcases env with ⟨mk, ld, ls, la, pf, rr⟩
  rcases env2 with ⟨mk2, ld2, ls2, la2, pf2, rr2⟩
  simp only at hdir hmk
  subst hdir
  subst hmk
  cases pf <;> cases mk2 <;> cases ld2 <;> cases ls2 <;> cases la2 <;> cases pf2 <;>
    simp_all [run_one_tag]

/-- Concrete instance of `run_one_tag_no_lock_dir`. -/
theorem run_one_tag_no_lock_dir_witness :
    (run_one_tag ⟨false, false, false, false, none, false⟩).lockFileCreated = false
    ∧ (run_one_tag ⟨false, false, false, false, none, false⟩).lockAcquired = false
    ∧ (run_one_tag ⟨false, false, false, false, none, false⟩).pipelineRan = true
    ∧ (run_one_tag ⟨false, false, false, false, none, false⟩).ok
        = (none : Option String).isNone
    ∧ ((run_one_tag ⟨false, true, false, false, none, false⟩).failedLockContention = true →
        (⟨false, true, false, false, none, false⟩ : TagRunEnv).lockDirConfigured = true) :=
  run_one_tag_no_lock_dir ⟨false, false, false, false, none, false⟩
    ⟨false, true, false, false, none, false⟩ rfl rfl

/-! ## Condor repo pulls: `distrepos/tag_run.py`, `pull_condor_repos` -/

/-- The rsync exit codes distinguished by `distrepos/util.py`. -/
def RSYNC_OK : Nat := 0

/-- Exit code 23: rsync could not find the requested source. -/
def RSYNC_NOT_FOUND : Nat := 23

/-- A source/destination pair from the tag's `condor_repos` list. -/
structure SrcDst where
  src : String
  dst : String
deriving Repr, DecidableEq

/-- The fields of a `Tag` that `pull_condor_repos` reads. -/
structure CondorTag where
  arches : List String
  condor_repos : List SrcDst
  arch_rpms_dest : String
  debug_rpms_dest : String
  source_rpms_dest : String
deriving Repr, DecidableEq

/-- Which of the three transfers of one (arch, repo) iteration a call is. -/
inductive XferKind
  | binary
  | debug
  | source
deriving Repr, DecidableEq

/-- One recorded invocation of `rsync_with_link`. -/
structure RsyncCall where
  kind : XferKind
  src : String
  dst : String
  link : String
  delete : Bool
  recursive : Bool
deriving Repr, DecidableEq

/-- The body of the inner `for repo in tag.condor_repos` loop of
`pull_condor_repos` (lines 94-158), for one architecture.  `code arch repo
k` is the exit code returned by the rsync invocation of kind `k` for that
(arch, repo) pair; `isFirst` is `idx == 0` from `enumerate(tag.arches)`
(source RPMs are only pulled for the first architecture).  Returns the
rsync calls issued (in order, including the failing one) and `some msg`
when a `TagFailure(msg)` is raised.  All three call sites pass
`delete=False, recursive=False`. -/
def pullReposForArch (condor_rsync working_root dest_root : String)
    (tag : CondorTag) (code : String → SrcDst → XferKind → Nat)
    (arch : String) (isFirst : Bool) : List SrcDst → List RsyncCall × Option String
  | [] => ([], none)
  | repo :: rest =>
    let arch_rpms_src := sub_arch (condor_rsync ++ "/" ++ repo.src ++ "/") arch
    let debug_rpms_src := arch_rpms_src ++ "debug/"
    let source_rpms_src := arch_rpms_src ++ "SRPMS/"
    let arch_rpms_dst :=
      sub_arch (working_root ++ "/" ++ tag.arch_rpms_dest ++ "/" ++ repo.dst ++ "/") arch
    let debug_rpms_dst :=
      sub_arch (working_root ++ "/" ++ tag.debug_rpms_dest ++ "/" ++ repo.dst ++ "/") arch
    let source_rpms_dst :=
      sub_arch (working_root ++ "/" ++ tag.source_rpms_dest ++ "/" ++ repo.dst ++ "/") arch
    let arch_rpms_link :=
      sub_arch (dest_root ++ "/" ++ tag.arch_rpms_dest ++ "/" ++ repo.dst ++ "/") arch
    let debug_rpms_link :=
      sub_arch (dest_root ++ "/" ++ tag.debug_rpms_dest ++ "/" ++ repo.dst ++ "/") arch
    let source_rpms_link :=
      sub_arch (dest_root ++ "/" ++ tag.source_rpms_dest ++ "/" ++ repo.dst ++ "/") arch
    let binCall : RsyncCall :=
      ⟨.binary, arch_rpms_src ++ "*.rpm", arch_rpms_dst, arch_rpms_link, false, false⟩
    -- "First, pull the main (binary) RPMs" — ok means exit code 0
    if code arch repo .binary ≠ RSYNC_OK then
      ([binCall], some ("Error pulling condor repos: rsync from condor repo for "
        ++ arch ++ " RPMs"))
    else
      let dbgCall : RsyncCall :=
        ⟨.debug, debug_rpms_src ++ "*.rpm", debug_rpms_dst, debug_rpms_link, false, false⟩
      -- "Next pull the debuginfo RPMs.  These may not exist." — exit codes
      -- RSYNC_OK and RSYNC_NOT_FOUND are both tolerated
      if code arch repo .debug ≠ RSYNC_OK ∧ code arch repo .debug ≠ RSYNC_NOT_FOUND then
        ([binCall, dbgCall], some ("Error pulling condor repos: rsync from condor repo for "
          ++ arch ++ " debug RPMs"))
      else if isFirst then
        -- "Finally pull the SRPMs -- only if we're on the first arch"
        let srcCall : RsyncCall :=
          ⟨.source, source_rpms_src ++ "*.rpm", source_rpms_dst, source_rpms_link,
            false, false⟩
        if code arch repo .source ≠ RSYNC_OK then
          ([binCall, dbgCall, srcCall],
            some "Error pulling condor repos: rsync from condor repo for source RPMs")
        else
          let r := pullReposForArch condor_rsync working_root dest_root tag code
            arch isFirst rest
          (binCall :: dbgCall :: srcCall :: r.1, r.2)
      else
        let r := pullReposForArch condor_rsync working_root dest_root tag code
          arch isFirst rest
        (binCall :: dbgCall :: r.1, r.2)

/-- The outer `for idx, arch in enumerate(tag.arches)` loop of
`pull_condor_repos`: `isFirst` is true exactly for the first architecture.
Stops at the first raised `TagFailure`. -/
def pullReposArchesLoop (condor_rsync working_root dest_root : String)
    (tag : CondorTag) (code : String → SrcDst → XferKind → Nat) :
    List String → Bool → List RsyncCall × Option String
  | [], _ => ([], none)
  | arch :: rest, isFirst =>
    let r := pullReposForArch condor_rsync working_root dest_root tag code
      arch isFirst tag.condor_repos
    -- a raised TagFailure propagates out of both loops
    if r.2.isSome then r
    else
      let r2 := pullReposArchesLoop condor_rsync working_root dest_root tag code
        rest false
      (r.1 ++ r2.1, r2.2)

/-- Shallow embedding of `pull_condor_repos(options, tag)` from
`distrepos/tag_run.py` (lines 74-158): the rsync calls issued and the
raised `TagFailure` message, if any. -/
def pull_condor_repos (condor_rsync working_root dest_root : String)
    (tag : CondorTag) (code : String → SrcDst → XferKind → Nat) :
    List RsyncCall × Option String :=
  pullReposArchesLoop condor_rsync working_root dest_root tag code tag.arches true

/-- Acceptable exit codes for one (arch, repo) iteration: the binary
transfer must return 0, the debug transfer may return 0 or 23 (source not
found), and — on the first architecture only — the source transfer must
return 0. -/
def repoCodesOk (code : String → SrcDst → XferKind → Nat) (arch : String)
    (isFirst : Bool) (repo : SrcDst) : Prop :=
  code arch repo .binary = RSYNC_OK
  ∧ (code arch repo .debug = RSYNC_OK ∨ code arch repo .debug = RSYNC_NOT_FOUND)
  ∧ (isFirst = true → code arch repo .source = RSYNC_OK)

/-- Acceptable exit codes for a list of architectures, the first of which
is the `idx == 0` architecture when `isFirst` is true. -/
def archesCodesOk (code : String → SrcDst → XferKind → Nat) (repos : List SrcDst) :
    List String → Bool → Prop
  | [], _ => True
  | arch :: rest, isFirst =>
    (∀ repo ∈ repos, repoCodesOk code arch isFirst repo)
    ∧ archesCodesOk code repos rest false

theorem pullReposForArch_calls_flags (condor_rsync working_root dest_root : String)
    (tag : CondorTag) (code : String → SrcDst → XferKind → Nat)
    (arch : String) (isFirst : Bool) :
    ∀ repos : List SrcDst,
      ∀ c ∈ (pullReposForArch condor_rsync working_root dest_root tag code
        arch isFirst repos).1, c.delete = false ∧ c.recursive = false := by
  intro repos
  induction repos with
  | nil => intro c hc; simp [pullReposForArch] at hc
  | cons repo rest ih =>
    intro c hc
    simp only [pullReposForArch] at hc
    split_ifs at hc
    · simp only [List.mem_cons, List.not_mem_nil, or_false] at hc
      rcases hc with rfl
      exact ⟨rfl, rfl⟩
    · simp only [List.mem_cons, List.not_mem_nil, or_false] at hc
      rcases hc with rfl | rfl <;> exact ⟨rfl, rfl⟩
    · simp only [List.mem_cons, List.not_mem_nil, or_false] at hc
      rcases hc with rfl | rfl | rfl <;> exact ⟨rfl, rfl⟩
    · simp only [List.mem_cons] at hc
      rcases hc with rfl | rfl | rfl | hc
      · exact ⟨rfl, rfl⟩
      · exact ⟨rfl, rfl⟩
      · exact ⟨rfl, rfl⟩
      · exact ih c hc
    · simp only [List.mem_cons] at hc
      rcases hc with rfl | rfl | hc
      · exact ⟨rfl, rfl⟩
      · exact ⟨rfl, rfl⟩
      · exact ih c hc

theorem pullReposForArch_none_iff (condor_rsync working_root dest_root : String)
    (tag : CondorTag) (code : String → SrcDst → XferKind → Nat)
    (arch : String) (isFirst : Bool) :
    ∀ repos : List SrcDst,
      (pullReposForArch condor_rsync working_root dest_root tag code
          arch isFirst repos).2 = none
        ↔ ∀ repo ∈ repos, repoCodesOk code arch isFirst repo := by
  intro repos
  induction repos with
  | nil => simp [pullReposForArch]
  | cons repo rest ih =>
    simp only [pullReposForArch]
    by_cases h1 : code arch repo .binary ≠ RSYNC_OK
    · rw [if_pos h1]
      simp only [List.forall_mem_cons]
      constructor
      · intro h
        exact absurd h (by simp)
      · intro h
        exact absurd h.1.1 h1
    · rw [if_neg h1]
      push_neg at h1
      by_cases h2 : code arch repo .debug ≠ RSYNC_OK ∧ code arch repo .debug ≠ RSYNC_NOT_FOUND
      · rw [if_pos h2]
        simp only [List.forall_mem_cons]
        constructor
        · intro h
          exact absurd h (by simp)
        · intro h
          rcases h.1.2.1 with hd | hd
          · exact absurd hd h2.1
          · exact absurd hd h2.2
      · rw [if_neg h2]
        have hdbg : code arch repo .debug = RSYNC_OK
            ∨ code arch repo .debug = RSYNC_NOT_FOUND := by
          by_contra hcon
          push_neg at hcon
          exact h2 hcon
        cases isFirst with
        | true =>
          rw [if_pos rfl]
          by_cases h3 : code arch repo .source ≠ RSYNC_OK
          · rw [if_pos h3]
            simp only [List.forall_mem_cons]
            constructor
            · intro h
              exact absurd h (by simp)
            · intro h
              exact absurd (h.1.2.2 rfl) h3
          · rw [if_neg h3]
            push_neg at h3
            simp only [List.forall_mem_cons]
            constructor
            · intro h
              exact ⟨⟨h1, hdbg, fun _ => h3⟩, ih.mp h⟩
            · intro h
              exact ih.mpr h.2
        | false =>
          rw [if_neg (by simp)]
          simp only [List.forall_mem_cons]
          constructor
          · intro h
            refine ⟨⟨h1, hdbg, ?_⟩, ih.mp h⟩
            intro hcon
            exact absurd hcon (by simp)
          · intro h
            exact ih.mpr h.2

theorem pullReposArchesLoop_none_iff (condor_rsync working_root dest_root : String)
    (tag : CondorTag) (code : String → SrcDst → XferKind → Nat) :
    ∀ (arches : List String) (isFirst : Bool),
      (pullReposArchesLoop condor_rsync working_root dest_root tag code
          arches isFirst).2 = none
        ↔ archesCodesOk code tag.condor_repos arches isFirst := by
  intro arches
  induction arches with
  | nil => intro isFirst; simp [pullReposArchesLoop, archesCodesOk]
  | cons arch rest ih =>
    intro isFirst
    simp only [pullReposArchesLoop, archesCodesOk]
    rcases hr : (pullReposForArch condor_rsync working_root dest_root tag code
        arch isFirst tag.condor_repos).2 with - | msg
    · have h1 : ∀ repo ∈ tag.condor_repos, repoCodesOk code arch isFirst repo :=
        (pullReposForArch_none_iff condor_rsync working_root dest_root tag code
          arch isFirst tag.condor_repos).mp hr
      have hcond : ¬((none : Option String).isSome = true) := by simp
      rw [if_neg hcond]
      have hred : ((pullReposForArch condor_rsync working_root dest_root tag code
            arch isFirst tag.condor_repos).1
          ++ (pullReposArchesLoop condor_rsync working_root dest_root tag code
            rest false).1,
          (pullReposArchesLoop condor_rsync working_root dest_root tag code
            rest false).2).2
        = (pullReposArchesLoop condor_rsync working_root dest_root tag code
            rest false).2 := rfl
      rw [hred, ih false]
      exact ⟨fun h => ⟨h1, h⟩, fun h => h.2⟩
    · have h1 : ¬∀ repo ∈ tag.condor_repos, repoCodesOk code arch isFirst repo := by
        intro hall
        rw [(pullReposForArch_none_iff condor_rsync working_root dest_root tag code
          arch isFirst tag.condor_repos).mpr hall] at hr
        exact Option.noConfusion hr
      have hcond : ((some msg : Option String).isSome = true) := rfl
      rw [if_pos hcond, hr]
      constructor
      · intro h
        exact absurd h (by simp)
      · rintro ⟨hall, -⟩
        exact absurd hall h1

theorem pullReposArchesLoop_calls_flags (condor_rsync working_root dest_root : String)
    (tag : CondorTag) (code : String → SrcDst → XferKind → Nat) :
    ∀ (arches : List String) (isFirst : Bool),
      ∀ c ∈ (pullReposArchesLoop condor_rsync working_root dest_root tag code
        arches isFirst).1, c.delete = false ∧ c.recursive = false := by
  intro arches
  induction arches with
  | nil => intro isFirst c hc; simp [pullReposArchesLoop] at hc
  | cons arch rest ih =>
    intro isFirst c hc
    simp only [pullReposArchesLoop] at hc
    rcases hr : (pullReposForArch condor_rsync working_root dest_root tag code
        arch isFirst tag.condor_repos).2 with - | msg
    · rw [hr] at hc
      have hcond : ¬((none : Option String).isSome = true) := by simp
      rw [if_neg hcond] at hc
      have hred : ((pullReposForArch condor_rsync working_root dest_root tag code
            arch isFirst tag.condor_repos).1
          ++ (pullReposArchesLoop condor_rsync working_root dest_root tag code
            rest false).1,
          (pullReposArchesLoop condor_rsync working_root dest_root tag code
            rest false).2).1
        = (pullReposForArch condor_rsync working_root dest_root tag code
            arch isFirst tag.condor_repos).1
          ++ (pullReposArchesLoop condor_rsync working_root dest_root tag code
            rest false).1 := rfl
      rw [hred, List.mem_append] at hc
      rcases hc with hc | hc
      · exact pullReposForArch_calls_flags condor_rsync working_root dest_root tag code
          arch isFirst tag.condor_repos c hc
      · exact ih false c hc
    · rw [hr] at hc
      have hcond : ((some msg : Option String).isSome = true) := rfl
      rw [if_pos hcond] at hc
      exact pullReposForArch_calls_flags condor_rsync working_root dest_root tag code
        arch isFirst tag.condor_repos c hc

/-- C8: every rsync invocation issued by `pull_condor_repos` has delete
disabled and is non-recursive, and the function raises no `TagFailure` if
and only if, for every architecture and condor repo, the binary transfer
exits 0, the debug transfer exits 0 or 23 (rsync "source not found", which
is tolerated), and — for the first architecture, where source RPMs are
pulled — the source transfer exits 0.  Any other exit code of any of the
three transfers raises a `TagFailure`. -/
theorem pull_condor_repos_spec (condor_rsync working_root dest_root : String)
    (tag : CondorTag) (code : String → SrcDst → XferKind → Nat) :
    (∀ c ∈ (pull_condor_repos condor_rsync working_root dest_root tag code).1,
      c.delete = false ∧ c.recursive = false)
    ∧ ((pull_condor_repos condor_rsync working_root dest_root tag code).2 = none
        ↔ archesCodesOk code tag.condor_repos tag.arches true) :=
  ⟨fun c hc => pullReposArchesLoop_calls_flags condor_rsync working_root dest_root
      tag code tag.arches true c hc,
    pullReposArchesLoop_none_iff condor_rsync working_root dest_root tag code
      tag.arches true⟩

/-! ## Run driver aggregation: `distrepos/__main__.py`, `main` (lines 1256-1300),
and the exit codes of `distrepos/error.py` -/

/-- Exit code for a run in which some tags failed (`distrepos/error.py`). -/
def ERR_FAILURES : Nat := 5

/-- Exit code for a run in which no tags were pulled (`distrepos/error.py`). -/
def ERR_EMPTY : Nat := 6

/-- Shallow embedding of the result aggregation at the end of `main`:
each tag's `run_one_tag` outcome is appended to `successful` or `failed`,
and then "if failed: return ERR_FAILURES; elif not successful: return
ERR_EMPTY; return 0".  `results` is the list of per-tag `ok` booleans in
loop order. -/
def mainExitCode (results : List Bool) : Nat :=
  let failed := results.filter (fun ok => !ok)
  let successful := results.filter (fun ok => ok)
  if failed ≠ [] then ERR_FAILURES
  else if successful = [] then ERR_EMPTY
  else 0

/-- Filesystem paths written by `main` after the tag loop.  The source code
between the end of the loop and the `return` statements only logs the
per-tag report; it performs no filesystem write, so this list is empty for
every run. -/
def mainPostLoopWrites (_results : List Bool) : List String := []

/-- The literal reading of claim C9: the driver exits with `ERR_FAILURES`
when some tag failed, with `ERR_EMPTY` when no tags were attempted, with 0
otherwise — and on full success it writes a (timestamp marker) file. -/
def mainDriverClaim : Prop :=
  (∀ results : List Bool,
    mainExitCode results
      = if results.any (fun ok => !ok) then ERR_FAILURES
        else if results.isEmpty then ERR_EMPTY
        else 0)
  ∧ (∀ results : List Bool, results ≠ [] → results.all (fun ok => ok) = true →
      mainPostLoopWrites results ≠ [])

/-- C9 counterexample: on a fully successful run (one tag, ok) the driver
performs no write at all after the loop — no timestamp marker file is
created — so the write clause of the claim fails. -/
theorem main_no_timestamp_marker : ¬ mainDriverClaim := by
  rintro ⟨-, h⟩
  exact h [true] (by decide) (by decide) rfl

/-- C9 amended: the driver's exit code is `ERR_FAILURES` when any tag
failed, `ERR_EMPTY` when there were no tag results at all, and 0 otherwise;
but no timestamp marker file (nor any other file) is written by the driver
after the tag loop, on success or otherwise. -/
theorem main_exit_code_spec (results : List Bool) :
    mainExitCode results
      = (if results.any (fun ok => !ok) then ERR_FAILURES
         else if results.isEmpty then ERR_EMPTY
         else 0)
    ∧ mainPostLoopWrites results = [] := by
  constructor
  · simp only [mainExitCode]
    by_cases hfail : results.filter (fun ok => !ok) = []
    · have hany : results.any (fun ok => !ok) = false := by
        rw [List.any_eq_false]
        intro x hx hbx
        have hmem : x ∈ results.filter (fun ok => !ok) := List.mem_filter.mpr ⟨hx, hbx⟩
        rw [hfail] at hmem
        exact absurd hmem (List.not_mem_nil x)
      rw [if_neg (by simp [hfail]), hany]
      simp only [Bool.false_eq_true, if_false]
      by_cases hres : results = []
      · subst hres
        simp
      · have hsucc : results.filter (fun ok => ok) ≠ [] := by
          rcases List.exists_mem_of_ne_nil results hres with ⟨x, hx⟩
          intro hnil
          cases hb : x with
          | true =>
            have : x ∈ results.filter (fun ok => ok) :=
              List.mem_filter.mpr ⟨hx, by rw [hb]⟩
            rw [hnil] at this
            exact absurd this (List.not_mem_nil x)
          | false =>
            have : x ∈ results.filter (fun ok => !ok) :=
              List.mem_filter.mpr ⟨hx, by rw [hb]; rfl⟩
            rw [hfail] at this
            exact absurd this (List.not_mem_nil x)
        rw [if_neg hsucc, if_neg (by simpa [List.isEmpty_iff] using hres)]
    · have hany : results.any (fun ok => !ok) = true := by
        rcases List.exists_mem_of_ne_nil _ hfail with ⟨x, hx⟩
        rcases List.mem_filter.mp hx with ⟨hmem, hbx⟩
        exact List.any_eq_true.mpr ⟨x, hmem, hbx⟩
      rw [if_pos hfail, hany, if_pos rfl]
  · rfl

end Distrepos
